import Mathlib

/-!
Verification development for the euraika-code repository.

The repository ships a small amount of concrete source code (the frontend
locale module `frontend/src/composables` i18n file, the locale index
`frontend/src/locales/index.ts`, and the image build/push script `run.sh`),
plus a specification of the session/sandbox orchestration core whose
implementation (the FastAPI backend) is not part of the shipped sources.

Part I embeds the shipped TypeScript/shell code faithfully.
Part II models the orchestration core from the specification text, since the
backend implementation is absent from the sources; every such definition is
marked `Modelled from the spec:`.
-/

/-! ## Part I.a: frontend locale module

Embedding of `frontend/src/locales/index.ts` and of the i18n composable file
(the file defining `getBrowserLocale`, `getStoredLocale`, `useLocale`).
-/

namespace Frontend

/-- The TypeScript type `Locale = 'en'`: a string-literal type with a single
inhabitant. -/
inductive Locale where
  | en
deriving DecidableEq, Repr

/-- The runtime string of a `Locale` value. -/
def Locale.toString : Locale → String
  | Locale.en => "en"

/-- The `availableLocales` constant from `locales/index.ts`:
a label/value list with a single entry. -/
def availableLocales : List (String × Locale) := [("English", Locale.en)]

/-- The `STORAGE_KEY` constant. -/
def STORAGE_KEY : String := "euraika-locale"

/-- Embedding of `getBrowserLocale`: the source returns the string literal
`'en'` unconditionally, for every environment. -/
def getBrowserLocale : String := "en"

/-- Embedding of `getStoredLocale`. The browser `localStorage` is modelled as
a partial map from keys to stored strings (`getItem` returns `null`, i.e.
`none`, when the key is absent). The source computes
`(storedLocale as Locale) || getBrowserLocale()`; in JavaScript the two falsy
string-or-null values are `null` and the empty string, both of which make the
expression evaluate to `getBrowserLocale()`. -/
def getStoredLocale (storage : String → Option String) : String :=
  match storage STORAGE_KEY with
  | none => getBrowserLocale
  | some s => if s = "" then getBrowserLocale else s

/-- The mutable state touched by `setLocale` inside `useLocale`:
the localStorage map, the global i18n locale (`i18n.global.locale.value`),
the composable ref `currentLocale`, and the `lang` attribute of the `html`
element. -/
structure FrontendState where
  storage : String → Option String
  i18nLocale : String
  currentLocale : String
  htmlLang : Option String

/-- Embedding of `setLocale` from `useLocale`: assigns the i18n global
locale, the `currentLocale` ref, the localStorage entry under `STORAGE_KEY`,
and the html `lang` attribute, all to the given locale string. -/
def setLocale (st : FrontendState) (l : String) : FrontendState :=
  { storage := fun k => if k = STORAGE_KEY then some l else st.storage k
    i18nLocale := l
    currentLocale := l
    htmlLang := some l }

end Frontend

/-! ## Part I.b: run.sh

Embedding of `run.sh`. The script reads `IMAGE_REGISTRY` and `IMAGE_TAG`
from the environment with `${VAR:-default}` defaulting (which substitutes the
default when the variable is unset or empty), then dispatches on `$1`.
Side effects are modelled as the list of echoed lines, the list of docker
commands executed, and the exit status.
-/

namespace RunSh

/-- A docker command issued by `run.sh`. -/
inductive DockerCmd where
  | composeBuild
  | tagImage (source : String) (target : String)
  | pushImage (image : String)
deriving DecidableEq, Repr

/-- The observable outcome of one run of the script: echoed lines, docker
commands executed in order, exit status. -/
structure RunResult where
  outputs : List String
  docker : List DockerCmd
  exitCode : Nat
deriving DecidableEq, Repr

/-- Shell `${VAR:-default}` substitution: the default replaces an unset or
empty variable. -/
def envDefault (v : Option String) (d : String) : String :=
  match v with
  | none => d
  | some s => if s = "" then d else s

/-- Embedding of the `build` function: runs `docker compose build`, then tags
the three images only when `IMAGE_REGISTRY` is non-empty. -/
def buildFn (reg tag : String) : RunResult :=
  { outputs := ["Building images..."]
    docker :=
      [DockerCmd.composeBuild] ++
      (if reg = "" then []
       else
        [DockerCmd.tagImage "euraika-frontend:latest"
          (reg ++ "/euraika-frontend:" ++ tag),
         DockerCmd.tagImage "euraika-backend:latest"
          (reg ++ "/euraika-backend:" ++ tag),
         DockerCmd.tagImage "euraika-sandbox:latest"
          (reg ++ "/euraika-sandbox:" ++ tag)])
    exitCode := 0 }

/-- Embedding of the `push` function: when `IMAGE_REGISTRY` is empty it
prints an error and exits with status 1 before any docker command; otherwise
it pushes the three images. -/
def pushFn (reg tag : String) : RunResult :=
  if reg = "" then
    { outputs := ["Error: IMAGE_REGISTRY is not set"]
      docker := []
      exitCode := 1 }
  else
    { outputs := ["Pushing images to " ++ reg ++ "..."]
      docker :=
        [DockerCmd.pushImage (reg ++ "/euraika-frontend:" ++ tag),
         DockerCmd.pushImage (reg ++ "/euraika-backend:" ++ tag),
         DockerCmd.pushImage (reg ++ "/euraika-sandbox:" ++ tag)]
      exitCode := 0 }

/-- The usage line echoed by the catch-all branch of the `case` statement. -/
def usageLine : String := "Usage: ./run.sh \x7bbuild|push\x7d"

/-- Embedding of the whole script: environment defaulting followed by the
`case "$1"` dispatch. Any argument other than `build` or `push` (including
the empty argument) prints the usage line and exits with status 1. -/
def runScript (arg : String) (regEnv tagEnv : Option String) : RunResult :=
  let reg := envDefault regEnv ""
  let tag := envDefault tagEnv "latest"
  if arg = "build" then buildFn reg tag
  else if arg = "push" then pushFn reg tag
  else { outputs := [usageLine], docker := [], exitCode := 1 }

end RunSh

/-! ## Part II: the orchestration core, modelled from the spec

The backend implementing the session/sandbox orchestration core is not among
the shipped sources; every definition below is modelled from the
specification text (sections 3 to 7) and is marked as such.
-/

namespace Orchestration

/-- Modelled from the spec: the Session status values of the data model
(section 3). -/
inductive SessionStatus where
  | pending
  | active
  | runningTool
  | interrupted
  | completed
  | expired
  | failed
deriving DecidableEq, Repr

/-- Modelled from the spec: the Sandbox status values of the data model
(section 3), together with the `failed` status that section 4.2 assigns to a
Sandbox whose health probe fails. -/
inductive SandboxStatus where
  | provisioning
  | ready
  | busy
  | idle
  | expiring
  | destroyed
  | failed
deriving DecidableEq, Repr

/-- Modelled from the spec: the orchestration error taxonomy of section 7. -/
inductive OrchError where
  | SandboxProvisionFailed
  | SandboxLost
  | SandboxBusy
  | NoSandbox
  | ToolTimeout
  | ToolInterrupted
  | ToolError
  | SessionBusy
  | SubscriberOverrun
deriving DecidableEq, Repr

/-! ### Event Stream Multiplexer (section 4.4) -/

/-- Modelled from the spec: an Event of the data model, carrying its
per-session monotonically increasing sequence number and a payload. -/
structure Event where
  seq : Nat
  payload : String
deriving DecidableEq, Repr

/-- Modelled from the spec: `publish(sessionId, event)` appends to the
Session's ordered log, stamping the next sequence number (sequence numbers
are issued consecutively starting from 0). -/
def publish (log : List Event) (payload : String) : List Event :=
  log ++ [{ seq := log.length, payload := payload }]

/-- Modelled from the spec: `subscribe(sessionId, fromSequence)` yields the
buffered Events whose sequence number is at least `fromSequence`, in log
order. -/
def subscribeFrom (log : List Event) (fromSeq : Nat) : List Event :=
  log.filter (fun e => fromSeq ≤ e.seq)

/-- A Session's event log produced by publishing the given payloads in
order, starting from the empty log. -/
def buildLog (payloads : List String) : List Event :=
  payloads.foldl publish []

/-! ### Tool Invocation Gateway (section 4.3) -/

/-- Modelled from the spec: the per-Sandbox state seen by the Tool
Invocation Gateway: its status, the identifiers of the ToolInvocations
currently running in it, the identifiers of every ToolInvocation it has ever
executed, and its TTL deadline. -/
structure SandboxState where
  status : SandboxStatus
  running : List Nat
  executed : List Nat
  ttlDeadline : Nat
deriving DecidableEq, Repr

/-- Modelled from the spec: `invoke(sessionId, toolCall, timeout)` resolves
the Session's Sandbox, which must be `ready` or `idle` (otherwise
`NoSandbox`); a second concurrent `invoke` while the Sandbox is `busy` fails
with `SandboxBusy` and the tool call is not forwarded. On success the
Sandbox is marked `busy` and the invocation starts running. -/
def invoke (sb : SandboxState) (invId : Nat) : Except OrchError SandboxState :=
  match sb.status with
  | SandboxStatus.busy => Except.error OrchError.SandboxBusy
  | SandboxStatus.ready =>
      Except.ok { sb with
        status := SandboxStatus.busy
        running := sb.running ++ [invId]
        executed := sb.executed ++ [invId] }
  | SandboxStatus.idle =>
      Except.ok { sb with
        status := SandboxStatus.busy
        running := sb.running ++ [invId]
        executed := sb.executed ++ [invId] }
  | _ => Except.error OrchError.NoSandbox

/-- Modelled from the spec: completion of the outstanding ToolInvocation at
time `now`. The Sandbox returns to `ready`, the invocation stops running,
and on success the TTL deadline is refreshed to `now + ttlInterval`
(section 3: the deadline is refreshed on every successful tool invocation). -/
def completeInvoke (sb : SandboxState) (now ttlInterval : Nat)
    (success : Bool) : SandboxState :=
  { sb with
    status := SandboxStatus.ready
    running := []
    ttlDeadline := if success then now + ttlInterval else sb.ttlDeadline }

/-- Modelled from the spec: a health probe against a Sandbox (section 4.2).
A failed probe against a `ready` or `busy` Sandbox marks it `failed`, and the
in-flight ToolInvocations against the dead Sandbox are failed with
`SandboxLost` (they stop running). Passive polling never touches the TTL
deadline. -/
def healthProbe (sb : SandboxState) (probeOk : Bool) : SandboxState :=
  if probeOk then sb
  else
    match sb.status with
    | SandboxStatus.ready => { sb with status := SandboxStatus.failed }
    | SandboxStatus.busy =>
        { sb with status := SandboxStatus.failed, running := [] }
    | _ => sb

/-- An operation the gateway performs on one Sandbox: starting an
invocation (which may be rejected), completing the outstanding one, or
probing health. -/
inductive GwOp where
  | start (invId : Nat)
  | finish (now ttlInterval : Nat) (success : Bool)
  | probe (probeOk : Bool)
deriving DecidableEq, Repr

/-- One gateway step: a rejected `invoke` leaves the Sandbox unchanged (the
tool call is never executed); `finish` is a no-op when nothing is running. -/
def gwStep (sb : SandboxState) (op : GwOp) : SandboxState :=
  match op with
  | GwOp.start invId =>
      match invoke sb invId with
      | Except.ok sb2 => sb2
      | Except.error _ => sb
  | GwOp.finish now ttlInterval success =>
      if sb.running = [] then sb else completeInvoke sb now ttlInterval success
  | GwOp.probe probeOk => healthProbe sb probeOk

/-- A freshly provisioned Sandbox as the gateway first sees it. -/
def initSandbox : SandboxState :=
  { status := SandboxStatus.ready, running := [], executed := [], ttlDeadline := 0 }

/-- Runs a sequence of gateway operations against a Sandbox. -/
def gwRun (sb : SandboxState) (ops : List GwOp) : SandboxState :=
  ops.foldl gwStep sb

/-! ### Session Orchestrator (section 4.1) -/

/-- Modelled from the spec: the per-Session state seen by the Session
Orchestrator: its status, the user turns currently in flight (at most one by
the invariant being verified), the cancellation signal set by `interrupt`,
and the reference to at most one Sandbox (by identifier). -/
structure SessionState where
  status : SessionStatus
  runningTurns : List String
  cancelRequested : Bool
  sandbox : Option Nat
deriving DecidableEq, Repr

/-- Modelled from the spec: `submitUserTurn(sessionId, message)` drives one
agent-loop iteration; a second `submitUserTurn` while a turn is in flight
fails with `SessionBusy` rather than queuing, leaving the Session untouched. -/
def submitUserTurn (s : SessionState) (msg : String) :
    Except OrchError SessionState :=
  if s.runningTurns = [] then
    Except.ok { s with
      status := SessionStatus.active
      runningTurns := [msg] }
  else Except.error OrchError.SessionBusy

/-- Modelled from the spec: completion of the in-flight agent-loop turn. -/
def finishTurn (s : SessionState) : SessionState :=
  { s with runningTurns := [] }

/-- Modelled from the spec: `interrupt(sessionId)` sets a cancellation
signal observed by the in-flight ToolInvocation and by the loop's next
scheduling point; it is idempotent. -/
def interrupt (s : SessionState) : SessionState :=
  { s with cancelRequested := true }

/-- Modelled from the spec: `endSession(sessionId)` releases the Sandbox and
marks the Session `completed`; it is idempotent as a terminal operation. -/
def endSession (s : SessionState) : SessionState :=
  { s with
    status := SessionStatus.completed
    runningTurns := []
    sandbox := none }

/-- An operation the orchestrator performs on one Session. -/
inductive SessOp where
  | submit (msg : String)
  | finish
  | doInterrupt
  | doEnd
deriving DecidableEq, Repr

/-- One orchestrator step: a rejected `submitUserTurn` leaves the Session
unchanged (the turn is not queued). -/
def sessStep (s : SessionState) (op : SessOp) : SessionState :=
  match op with
  | SessOp.submit msg =>
      match submitUserTurn s msg with
      | Except.ok s2 => s2
      | Except.error _ => s
  | SessOp.finish => finishTurn s
  | SessOp.doInterrupt => interrupt s
  | SessOp.doEnd => endSession s

/-- A freshly created Session (status `pending`, nothing in flight). -/
def initSession : SessionState :=
  { status := SessionStatus.pending
    runningTurns := []
    cancelRequested := false
    sandbox := none }

/-- Runs a sequence of orchestrator operations against a Session. -/
def sessRun (s : SessionState) (ops : List SessOp) : SessionState :=
  ops.foldl sessStep s

/-! ### Sandbox pool and Lifecycle Controller (section 4.2) -/

/-- Modelled from the spec: the pool of Sandbox identifiers owned by the
Lifecycle Controller. Fresh identifiers are drawn from a monotone counter;
destroyed identifiers are recorded and never handed out again. -/
structure Pool where
  nextId : Nat
  liveIds : List Nat
  destroyedIds : List Nat
deriving DecidableEq, Repr

/-- An operation on the Sandbox pool: provisioning a new Sandbox or
destroying a live one. -/
inductive PoolOp where
  | provision
  | destroy (id : Nat)
deriving DecidableEq, Repr

/-- One pool step: `provision` allocates the next fresh identifier;
`destroy` retires a live identifier into the destroyed set. -/
def poolStep (p : Pool) (op : PoolOp) : Pool :=
  match op with
  | PoolOp.provision =>
      { p with nextId := p.nextId + 1, liveIds := p.liveIds ++ [p.nextId] }
  | PoolOp.destroy i =>
      if i ∈ p.liveIds then
        { p with
          liveIds := p.liveIds.erase i
          destroyedIds := p.destroyedIds ++ [i] }
      else p

/-- The empty pool at system start. -/
def initPool : Pool := { nextId := 0, liveIds := [], destroyedIds := [] }

/-- Runs a sequence of pool operations. -/
def poolRun (p : Pool) (ops : List PoolOp) : Pool :=
  ops.foldl poolStep p

/-- The identifier the next `provision` on this pool will allocate. -/
def provisionedId (p : Pool) : Nat := p.nextId

/-- Modelled from the spec: a Sandbox is live unless it was destroyed or its
health probe marked it failed. -/
def liveSandbox (sb : SandboxState) : Bool :=
  decide (sb.status ≠ SandboxStatus.destroyed ∧ sb.status ≠ SandboxStatus.failed)

/-- Modelled from the spec: the Lifecycle Controller state relevant to
`acquire` for one Session: the identifier pool and the Sandbox the Session
currently owns, if any. -/
structure LifecycleState where
  pool : Pool
  owned : Option SandboxState
deriving DecidableEq, Repr

/-- Modelled from the spec: provisioning a new Sandbox waits for the internal
API health check with bounded retries; `probe k` is the outcome of the k-th
attempt, and only attempts `0, ..., N - 1` are made. -/
def provisionNew (st : LifecycleState) (probe : Nat → Bool) (N : Nat) :
    Except OrchError (SandboxState × LifecycleState) :=
  if (List.range N).any probe then
    let sb : SandboxState :=
      { status := SandboxStatus.ready
        running := []
        executed := []
        ttlDeadline := 0 }
    Except.ok (sb, { pool := poolStep st.pool PoolOp.provision, owned := some sb })
  else Except.error OrchError.SandboxProvisionFailed

/-- Modelled from the spec: `acquire(sessionId)` returns the Session's own
live Sandbox unchanged when it has one, and otherwise provisions a new one,
failing with `SandboxProvisionFailed` after N health-check attempts. -/
def acquire (st : LifecycleState) (probe : Nat → Bool) (N : Nat) :
    Except OrchError (SandboxState × LifecycleState) :=
  match st.owned with
  | some sb =>
      if liveSandbox sb then Except.ok (sb, st) else provisionNew st probe N
  | none => provisionNew st probe N

end Orchestration

/-! ### Lemmas about the Event Stream Multiplexer -/

namespace Orchestration

/-- Publishing one more payload appends one event to the built log. -/
theorem buildLog_append_single (ps : List String) (x : String) :
    buildLog (ps ++ [x]) = publish (buildLog ps) x := by
  simp [buildLog, List.foldl_append]

/-- The sequence numbers of a log built by publishing are exactly
`0, ..., n - 1` in order. -/
theorem buildLog_map_seq (ps : List String) :
    (buildLog ps).map Event.seq = List.range ps.length := by
  induction ps using List.reverseRecOn with
  | nil => rfl
  | append_singleton ps x ih =>
      have hlen : (buildLog ps).length = ps.length := by
        have h := congrArg List.length ih
        simpa using h
      rw [buildLog_append_single]
      simp [publish, List.map_append, ih, hlen, List.range_succ]

/-- A built log has one event per published payload. -/
theorem buildLog_length (ps : List String) :
    (buildLog ps).length = ps.length := by
  have h := congrArg List.length (buildLog_map_seq ps)
  simpa using h

/-- Keeping the elements of `range n` that are at least `K` is the same as
dropping the first `K`. -/
theorem range_filter_le (n K : Nat) :
    (List.range n).filter (fun m => K ≤ m) = (List.range n).drop K := by
  induction n with
  | zero => simp
  | succ n ih =>
      rw [List.range_succ, List.filter_append,
        List.drop_append_eq_append_drop, ih]
      by_cases h : K ≤ n
      · have h0 : K - (List.range n).length = 0 := by
          simp only [List.length_range]
          omega
        simp [h, h0]
      · have h1 : List.drop K (List.range n) = [] := by
          apply List.drop_eq_nil_of_le
          simp only [List.length_range]
          omega
        have h2 : List.drop (K - (List.range n).length) [n] = [] := by
          apply List.drop_eq_nil_of_le
          simp only [List.length_range, List.length_cons, List.length_nil]
          omega
        simp [h, h1, h2]
        omega

/-- The sequence numbers delivered by `subscribeFrom` on a built log are
exactly `K, K + 1, ...` up to the log's length. -/
theorem subscribeFrom_map_seq (ps : List String) (K : Nat) :
    (subscribeFrom (buildLog ps) K).map Event.seq
      = (List.range ps.length).drop K := by
  have h1 : (subscribeFrom (buildLog ps) K).map Event.seq
      = ((buildLog ps).map Event.seq).filter (fun m => K ≤ m) := by
    rw [subscribeFrom, List.filter_map]
    rfl
  rw [h1, buildLog_map_seq, range_filter_le]

/-- A log built from more payloads extends the log built from fewer. -/
theorem buildLog_grows (ps qs : List String) :
    buildLog ps <+: buildLog (ps ++ qs) := by
  rw [buildLog, buildLog, List.foldl_append]
  generalize List.foldl publish [] ps = log
  induction qs generalizing log with
  | nil => exact List.prefix_refl _
  | cons q qs ih =>
      rw [List.foldl_cons]
      exact List.IsPrefix.trans
        (List.prefix_append log [{ seq := log.length, payload := q }]) (ih _)

/-- Subscribers see events in strictly increasing sequence order. -/
theorem subscribeFrom_pairwise (ps : List String) (K : Nat) :
    List.Pairwise (fun a b => a.seq < b.seq) (subscribeFrom (buildLog ps) K) := by
  have hp : List.Pairwise (fun a b => a < b) ((buildLog ps).map Event.seq) := by
    rw [buildLog_map_seq]; exact List.pairwise_lt_range _
  have hp2 : List.Pairwise (fun a b => a.seq < b.seq) (buildLog ps) :=
    List.pairwise_map.mp hp
  exact List.Pairwise.sublist (List.filter_sublist _) hp2

end Orchestration

namespace Orchestration

/-- Every event in the first `K` positions of a built log has sequence
number below `K`. -/
theorem seq_lt_of_mem_take (ps : List String) (K : Nat) (e : Event)
    (he : e ∈ List.take K (buildLog ps)) : e.seq < K := by
  have h1 : e.seq ∈ List.take K ((buildLog ps).map Event.seq) := by
    rw [← List.map_take]
    exact List.mem_map_of_mem Event.seq he
  rw [buildLog_map_seq, List.take_range] at h1
  have h2 := List.mem_range.mp h1
  have h3 : min K ps.length ≤ K := min_le_left _ _
  omega

/-- Every event beyond the first `K` positions of a built log has sequence
number at least `K`. -/
theorem le_seq_of_mem_drop (ps : List String) (K : Nat) (e : Event)
    (he : e ∈ List.drop K (buildLog ps)) : K ≤ e.seq := by
  have h1 : e.seq ∈ List.drop K ((buildLog ps).map Event.seq) := by
    rw [← List.map_drop]
    exact List.mem_map_of_mem Event.seq he
  rw [buildLog_map_seq, ← range_filter_le] at h1
  have h2 := (List.mem_filter.mp h1).2
  exact of_decide_eq_true h2

/-- Subscribing from `K` on a built log delivers exactly the events beyond
the first `K`. -/
theorem subscribeFrom_eq_drop (ps : List String) (K : Nat) :
    subscribeFrom (buildLog ps) K = List.drop K (buildLog ps) := by
  rw [subscribeFrom]
  conv_lhs => rw [← List.take_append_drop K (buildLog ps)]
  rw [List.filter_append]
  have htake :
      List.filter (fun e => decide (K ≤ e.seq)) (List.take K (buildLog ps)) = [] := by
    rw [List.filter_eq_nil_iff]
    intro e he
    have h := seq_lt_of_mem_take ps K e he
    simp only [decide_eq_true_eq]
    omega
  have hdrop :
      List.filter (fun e => decide (K ≤ e.seq)) (List.drop K (buildLog ps))
        = List.drop K (buildLog ps) := by
    rw [List.filter_eq_self]
    intro e he
    exact decide_eq_true (le_seq_of_mem_drop ps K e he)
  rw [htake, hdrop, List.nil_append]

end Orchestration

/-! ## Claims about the Event Stream Multiplexer -/

namespace Orchestration

/-- C1: for every Session, the event log is built by publishing, and any
subscriber starting at sequence `K` sees exactly the sequence numbers
`K, K + 1, ...` up to the log's length (strictly increasing, with no gaps
from its starting sequence onward), and the stream seen over the log at an
earlier time is a prefix of the stream seen over the same log extended with
later events, so every observer of the same Session sees the identical
sequence of Events. -/
theorem C1_event_sequence_invariant (ps qs : List String) (K : Nat) :
    (subscribeFrom (buildLog ps) K).map Event.seq = (List.range ps.length).drop K
    ∧ List.Pairwise (fun a b => a.seq < b.seq) (subscribeFrom (buildLog ps) K)
    ∧ subscribeFrom (buildLog ps) K <+: subscribeFrom (buildLog (ps ++ qs)) K := by
  refine ⟨subscribeFrom_map_seq ps K, subscribeFrom_pairwise ps K, ?_⟩
  exact List.IsPrefix.filter _ (buildLog_grows ps qs)

/-- C6: after `K = ps.length` events were delivered to a prior subscriber,
`subscribeFrom` at `K` over the extended log yields exactly the events with
sequence number at least `K` (equivalently, exactly the events beyond the
first `K`), in sequence order, with no duplicates. -/
theorem C6_subscribe_roundtrip (ps qs : List String) :
    subscribeFrom (buildLog (ps ++ qs)) ps.length
      = List.drop ps.length (buildLog (ps ++ qs))
    ∧ (∀ e : Event, e ∈ subscribeFrom (buildLog (ps ++ qs)) ps.length ↔
        e ∈ buildLog (ps ++ qs) ∧ ps.length ≤ e.seq)
    ∧ List.Pairwise (fun a b => a.seq < b.seq)
        (subscribeFrom (buildLog (ps ++ qs)) ps.length) := by
  refine ⟨subscribeFrom_eq_drop (ps ++ qs) ps.length, ?_,
    subscribeFrom_pairwise (ps ++ qs) ps.length⟩
  intro e
  rw [subscribeFrom, List.mem_filter]
  simp only [decide_eq_true_eq]

end Orchestration

/-! ## Claims about the Tool Invocation Gateway -/

namespace Orchestration

/-- The gateway invariant: at most one ToolInvocation runs per Sandbox, and
a Sandbox that is not `busy` has nothing running. -/
def GwInv (sb : SandboxState) : Prop :=
  sb.running.length ≤ 1
  ∧ (sb.status ≠ SandboxStatus.busy → sb.running = [])

/-- Every gateway step preserves the gateway invariant. -/
theorem gwStep_preserves_inv (sb : SandboxState) (op : GwOp) (h : GwInv sb) :
    GwInv (gwStep sb op) := by
  obtain ⟨h1, h2⟩ := h
  cases op with
  | start invId =>
      cases hst : sb.status with
      | ready =>
          have hrun : sb.running = [] := h2 (by simp [hst])
          constructor
          · simp [gwStep, invoke, hst, hrun]
          · intro hns
            simp [gwStep, invoke, hst] at hns
      | idle =>
          have hrun : sb.running = [] := h2 (by simp [hst])
          constructor
          · simp [gwStep, invoke, hst, hrun]
          · intro hns
            simp [gwStep, invoke, hst] at hns
      | busy => exact ⟨by simpa [gwStep, invoke, hst] using h1,
          by simp [gwStep, invoke, hst]⟩
      | provisioning => exact ⟨by simpa [gwStep, invoke, hst] using h1,
          by simpa [gwStep, invoke, hst] using h2⟩
      | expiring => exact ⟨by simpa [gwStep, invoke, hst] using h1,
          by simpa [gwStep, invoke, hst] using h2⟩
      | destroyed => exact ⟨by simpa [gwStep, invoke, hst] using h1,
          by simpa [gwStep, invoke, hst] using h2⟩
      | failed => exact ⟨by simpa [gwStep, invoke, hst] using h1,
          by simpa [gwStep, invoke, hst] using h2⟩
  | finish now ttlInterval success =>
      by_cases hr : sb.running = []
      · exact ⟨by simp [gwStep, hr], by simp [gwStep, hr]⟩
      · constructor
        · simp [gwStep, hr, completeInvoke]
        · intro hns
          simp [gwStep, hr, completeInvoke]
  | probe probeOk =>
      cases probeOk with
      | true => exact ⟨by simpa [gwStep, healthProbe] using h1,
          by simpa [gwStep, healthProbe] using h2⟩
      | false =>
          cases hst : sb.status with
          | ready =>
              have hrun : sb.running = [] := h2 (by simp [hst])
              constructor
              · simp [gwStep, healthProbe, hst, hrun]
              · intro hns
                simp [gwStep, healthProbe, hst, hrun]
          | busy =>
              constructor
              · simp [gwStep, healthProbe, hst]
              · intro hns
                simp [gwStep, healthProbe, hst]
          | idle => exact ⟨by simpa [gwStep, healthProbe, hst] using h1,
              by simpa [gwStep, healthProbe, hst] using h2⟩
          | provisioning => exact ⟨by simpa [gwStep, healthProbe, hst] using h1,
              by simpa [gwStep, healthProbe, hst] using h2⟩
          | expiring => exact ⟨by simpa [gwStep, healthProbe, hst] using h1,
              by simpa [gwStep, healthProbe, hst] using h2⟩
          | destroyed => exact ⟨by simpa [gwStep, healthProbe, hst] using h1,
              by simpa [gwStep, healthProbe, hst] using h2⟩
          | failed => exact ⟨by simpa [gwStep, healthProbe, hst] using h1,
              by simpa [gwStep, healthProbe, hst] using h2⟩

/-- The gateway invariant holds after any sequence of gateway operations
from any state satisfying it. -/
theorem gwRun_preserves_inv (ops : List GwOp) (sb : SandboxState)
    (h : GwInv sb) : GwInv (gwRun sb ops) := by
  induction ops generalizing sb with
  | nil => exact h
  | cons op ops ih =>
      rw [gwRun, List.foldl_cons]
      exact ih (gwStep sb op) (gwStep_preserves_inv sb op h)

/-- A concrete Sandbox with one outstanding ToolInvocation, used to witness
the `SandboxBusy` guard. -/
def busySandboxExample : SandboxState :=
  { status := SandboxStatus.busy, running := [0], executed := [0],
    ttlDeadline := 7 }

/-- C2: a second concurrent `invoke` against a Sandbox that already has an
outstanding ToolInvocation fails with `SandboxBusy`, leaves the Sandbox
unchanged, and the second tool call is never executed; and along any
sequence of gateway operations at most one ToolInvocation is ever running
per Sandbox. -/
theorem C2_sandbox_busy_guard (sb : SandboxState) (invId : Nat)
    (ops : List GwOp) (hbusy : sb.status = SandboxStatus.busy)
    (hnew : invId ∉ sb.executed) :
    invoke sb invId = Except.error OrchError.SandboxBusy
    ∧ gwStep sb (GwOp.start invId) = sb
    ∧ invId ∉ (gwStep sb (GwOp.start invId)).executed
    ∧ (gwRun initSandbox ops).running.length ≤ 1 := by
  have h1 : invoke sb invId = Except.error OrchError.SandboxBusy := by
    simp [invoke, hbusy]
  have h2 : gwStep sb (GwOp.start invId) = sb := by
    simp [gwStep, h1]
  refine ⟨h1, h2, ?_, ?_⟩
  · rw [h2]
    exact hnew
  · exact (gwRun_preserves_inv ops initSandbox (by simp [GwInv, initSandbox])).1

/-- Witness for C2 at a concrete busy Sandbox and a concrete operation
sequence that attempts a second concurrent invocation. -/
theorem C2_sandbox_busy_guard_witness :
    busySandboxExample.status = SandboxStatus.busy
    ∧ (1 : Nat) ∉ busySandboxExample.executed
    ∧ (invoke busySandboxExample 1 = Except.error OrchError.SandboxBusy
       ∧ gwStep busySandboxExample (GwOp.start 1) = busySandboxExample
       ∧ (1 : Nat) ∉ (gwStep busySandboxExample (GwOp.start 1)).executed
       ∧ (gwRun initSandbox [GwOp.start 0, GwOp.start 1]).running.length ≤ 1) :=
  ⟨by decide, by decide,
    C2_sandbox_busy_guard busySandboxExample 1 [GwOp.start 0, GwOp.start 1]
      (by decide) (by decide)⟩

end Orchestration

/-! ## Claims about the Session Orchestrator -/

namespace Orchestration

/-- The orchestrator invariant: at most one agent-loop turn runs per
Session. -/
def SessInv (s : SessionState) : Prop := s.runningTurns.length ≤ 1

/-- Every orchestrator step preserves the orchestrator invariant. -/
theorem sessStep_preserves_inv (s : SessionState) (op : SessOp)
    (h : SessInv s) : SessInv (sessStep s op) := by
  cases op with
  | submit msg =>
      by_cases hr : s.runningTurns = []
      · simp [sessStep, submitUserTurn, hr, SessInv]
      · simpa [sessStep, submitUserTurn, hr, SessInv] using h
  | finish => simp [sessStep, finishTurn, SessInv]
  | doInterrupt => simpa [sessStep, interrupt, SessInv] using h
  | doEnd => simp [sessStep, endSession, SessInv]

/-- The orchestrator invariant holds after any sequence of orchestrator
operations from any state satisfying it. -/
theorem sessRun_preserves_inv (ops : List SessOp) (s : SessionState)
    (h : SessInv s) : SessInv (sessRun s ops) := by
  induction ops generalizing s with
  | nil => exact h
  | cons op ops ih =>
      rw [sessRun, List.foldl_cons]
      exact ih (sessStep s op) (sessStep_preserves_inv s op h)

/-- A concrete Session with a turn in flight, used to witness the
`SessionBusy` guard. -/
def busySessionExample : SessionState :=
  { status := SessionStatus.active, runningTurns := ["first turn"],
    cancelRequested := false, sandbox := none }

/-- C3: a second `submitUserTurn` on a Session with an agent-loop turn in
flight fails with `SessionBusy` and leaves the Session unchanged (the turn
is not queued); and along any sequence of orchestrator operations at most
one agent-loop turn is ever running per Session. -/
theorem C3_session_busy_guard (s : SessionState) (msg : String)
    (ops : List SessOp) (hbusy : s.runningTurns ≠ []) :
    submitUserTurn s msg = Except.error OrchError.SessionBusy
    ∧ sessStep s (SessOp.submit msg) = s
    ∧ (sessRun initSession ops).runningTurns.length ≤ 1 := by
  have h1 : submitUserTurn s msg = Except.error OrchError.SessionBusy := by
    simp [submitUserTurn, hbusy]
  refine ⟨h1, by simp [sessStep, h1], ?_⟩
  exact sessRun_preserves_inv ops initSession (by simp [SessInv, initSession])

/-- Witness for C3 at a concrete busy Session and a concrete operation
sequence that attempts a second concurrent turn. -/
theorem C3_session_busy_guard_witness :
    busySessionExample.runningTurns ≠ []
    ∧ (submitUserTurn busySessionExample "second turn"
        = Except.error OrchError.SessionBusy
       ∧ sessStep busySessionExample (SessOp.submit "second turn")
        = busySessionExample
       ∧ (sessRun initSession
            [SessOp.submit "a", SessOp.submit "b"]).runningTurns.length ≤ 1) :=
  ⟨by decide,
    C3_session_busy_guard busySessionExample "second turn"
      [SessOp.submit "a", SessOp.submit "b"] (by decide)⟩

/-- C7: `interrupt` is idempotent (a second call leaves the Session state
equal to the state after the first), and `endSession` is likewise
idempotent as a terminal operation. -/
theorem C7_terminal_ops_idempotent (s : SessionState) :
    interrupt (interrupt s) = interrupt s
    ∧ endSession (endSession s) = endSession s :=
  ⟨rfl, rfl⟩

end Orchestration

/-! ## Claims about the Sandbox Lifecycle Controller -/

namespace Orchestration

/-- The pool invariant: every identifier ever handed out, live or
destroyed, lies below the fresh-identifier counter. -/
def PoolInv (p : Pool) : Prop :=
  (∀ i ∈ p.liveIds, i < p.nextId) ∧ (∀ i ∈ p.destroyedIds, i < p.nextId)

/-- Every pool step preserves the pool invariant. -/
theorem poolStep_preserves_inv (p : Pool) (op : PoolOp) (h : PoolInv p) :
    PoolInv (poolStep p op) := by
  obtain ⟨h1, h2⟩ := h
  cases op with
  | provision =>
      constructor
      · intro i hi
        simp only [poolStep, List.mem_append, List.mem_singleton] at hi
        rcases hi with hi | hi
        · exact Nat.lt_succ_of_lt (h1 i hi)
        · simp [poolStep, hi]
      · intro i hi
        simp only [poolStep] at hi
        simp only [poolStep]
        exact Nat.lt_succ_of_lt (h2 i hi)
  | destroy j =>
      by_cases hj : j ∈ p.liveIds
      · constructor
        · intro i hi
          simp only [poolStep, hj, if_true] at hi
          simp only [poolStep, hj, if_true]
          exact h1 i (List.mem_of_mem_erase hi)
        · intro i hi
          simp only [poolStep, hj, if_true, List.mem_append,
            List.mem_singleton] at hi
          simp only [poolStep, hj, if_true]
          rcases hi with hi | hi
          · exact h2 i hi
          · rw [hi]
            exact h1 j hj
      · exact ⟨by simpa [poolStep, hj] using h1,
          by simpa [poolStep, hj] using h2⟩

/-- A pool step never decreases the fresh-identifier counter. -/
theorem poolStep_nextId_le (p : Pool) (op : PoolOp) :
    p.nextId ≤ (poolStep p op).nextId := by
  cases op with
  | provision => simp [poolStep]
  | destroy j => by_cases hj : j ∈ p.liveIds <;> simp [poolStep, hj]

/-- Running pool operations never decreases the fresh-identifier counter. -/
theorem poolRun_nextId_le (p : Pool) (ops : List PoolOp) :
    p.nextId ≤ (poolRun p ops).nextId := by
  induction ops generalizing p with
  | nil => exact Nat.le_refl _
  | cons op ops ih =>
      rw [poolRun, List.foldl_cons]
      exact Nat.le_trans (poolStep_nextId_le p op) (ih (poolStep p op))

/-- The pool invariant holds after any sequence of pool operations from any
pool satisfying it. -/
theorem poolRun_preserves_inv (ops : List PoolOp) (p : Pool) (h : PoolInv p) :
    PoolInv (poolRun p ops) := by
  induction ops generalizing p with
  | nil => exact h
  | cons op ops ih =>
      rw [poolRun, List.foldl_cons]
      exact ih (poolStep p op) (poolStep_preserves_inv p op h)

/-- C4: a Sandbox's TTL deadline strictly increases when a successful tool
invocation completes after the time at which the old deadline was computed,
a health probe (passive polling) never changes the TTL deadline, and an
identifier recorded as destroyed is never allocated to any Sandbox
provisioned later. -/
theorem C4_ttl_refresh_and_id_reuse (sb : SandboxState) (now T : Nat)
    (probeOk : Bool) (ops1 ops2 : List PoolOp) (i : Nat)
    (httl : sb.ttlDeadline < now + T)
    (hdest : i ∈ (poolRun initPool ops1).destroyedIds) :
    sb.ttlDeadline < (completeInvoke sb now T true).ttlDeadline
    ∧ (healthProbe sb probeOk).ttlDeadline = sb.ttlDeadline
    ∧ provisionedId (poolRun (poolRun initPool ops1) ops2) ≠ i := by
  refine ⟨by simpa [completeInvoke] using httl, ?_, ?_⟩
  · cases probeOk with
    | true => simp [healthProbe]
    | false => cases hst : sb.status <;> simp [healthProbe, hst]
  · have hinv : PoolInv (poolRun initPool ops1) := by
      apply poolRun_preserves_inv
      constructor <;> intro j hj <;> simp [initPool] at hj
    have hlt : i < (poolRun initPool ops1).nextId := hinv.2 i hdest
    have hle := poolRun_nextId_le (poolRun initPool ops1) ops2
    simp only [provisionedId]
    omega

/-- Witness for C4 at a concrete Sandbox, a concrete completion time, and a
concrete pool history that destroys identifier 0. -/
theorem C4_ttl_refresh_and_id_reuse_witness :
    initSandbox.ttlDeadline < 1 + 1
    ∧ (0 : Nat) ∈ (poolRun initPool
        [PoolOp.provision, PoolOp.destroy 0]).destroyedIds
    ∧ (initSandbox.ttlDeadline
        < (completeInvoke initSandbox 1 1 true).ttlDeadline
       ∧ (healthProbe initSandbox true).ttlDeadline = initSandbox.ttlDeadline
       ∧ provisionedId (poolRun (poolRun initPool
            [PoolOp.provision, PoolOp.destroy 0]) [PoolOp.provision]) ≠ 0) :=
  ⟨by decide, by decide,
    C4_ttl_refresh_and_id_reuse initSandbox 1 1 true
      [PoolOp.provision, PoolOp.destroy 0] [PoolOp.provision] 0
      (by decide) (by decide)⟩

end Orchestration

namespace Orchestration

/-- A concrete Lifecycle Controller state whose Session already owns a live
Sandbox. -/
def ownedLifecycleExample : LifecycleState :=
  { pool := initPool, owned := some initSandbox }

/-- A concrete Lifecycle Controller state whose Session owns no Sandbox. -/
def emptyLifecycleExample : LifecycleState :=
  { pool := initPool, owned := none }

/-- C5: `acquire` returns the Session's own live Sandbox unchanged when it
has one; otherwise it provisions with exactly `N` bounded health-check
attempts, failing with `SandboxProvisionFailed` when all `N` attempts fail
and succeeding with some Sandbox when one of the first `N` attempts
succeeds (it never retries beyond `N` and never returns silently). -/
theorem C5_acquire_contract (st st2 : LifecycleState)
    (probe1 probe2 : Nat → Bool) (N : Nat) (sb : SandboxState)
    (howned : st.owned = some sb) (hlive : liveSandbox sb = true)
    (hnone : st2.owned = none)
    (hfail : ∀ k, k < N → probe1 k = false)
    (hsucc : ∃ k, k < N ∧ probe2 k = true) :
    acquire st probe1 N = Except.ok (sb, st)
    ∧ acquire st2 probe1 N = Except.error OrchError.SandboxProvisionFailed
    ∧ ∃ sb2 st3, acquire st2 probe2 N = Except.ok (sb2, st3) := by
  refine ⟨?_, ?_, ?_⟩
  · simp [acquire, howned, hlive]
  · have hany : (List.range N).any probe1 = false := by
      rw [List.any_eq_false]
      intro x hx
      simp [hfail x (List.mem_range.mp hx)]
    simp [acquire, hnone, provisionNew, hany]
  · obtain ⟨k, hk, hpk⟩ := hsucc
    have hany : (List.range N).any probe2 = true := by
      rw [List.any_eq_true]
      exact ⟨k, List.mem_range.mpr hk, hpk⟩
    refine ⟨initSandbox,
      { pool := poolStep st2.pool PoolOp.provision, owned := some initSandbox },
      ?_⟩
    simp [acquire, hnone, provisionNew, hany, initSandbox]

/-- Witness for C5 at concrete Lifecycle Controller states, an
always-failing probe, a probe that succeeds on the first attempt, and a
retry bound of 2. -/
theorem C5_acquire_contract_witness :
    ownedLifecycleExample.owned = some initSandbox
    ∧ liveSandbox initSandbox = true
    ∧ emptyLifecycleExample.owned = none
    ∧ (∀ k, k < 2 → (fun _ : Nat => false) k = false)
    ∧ (∃ k, k < 2 ∧ (fun j : Nat => j == 0) k = true)
    ∧ (acquire ownedLifecycleExample (fun _ => false) 2
        = Except.ok (initSandbox, ownedLifecycleExample)
       ∧ acquire emptyLifecycleExample (fun _ => false) 2
        = Except.error OrchError.SandboxProvisionFailed
       ∧ ∃ sb2 st3, acquire emptyLifecycleExample (fun j => j == 0) 2
        = Except.ok (sb2, st3)) :=
  ⟨rfl, by decide, rfl, by decide, ⟨0, by decide, by decide⟩,
    C5_acquire_contract ownedLifecycleExample emptyLifecycleExample
      (fun _ => false) (fun j => j == 0) 2 initSandbox rfl (by decide) rfl
      (by decide) ⟨0, by decide, by decide⟩⟩

end Orchestration

/-! ## Claims about the shipped frontend and script sources -/

/-- C8: `getBrowserLocale` returns `'en'` for every environment, so
`getStoredLocale` returns `'en'` whenever localStorage has no entry under
the key `'euraika-locale'`; `'en'` is the only value of the `Locale` type
and the only entry in `availableLocales`. -/
theorem C8_locale_only_en (storage : String → Option String)
    (l : Frontend.Locale) (h : storage Frontend.STORAGE_KEY = none) :
    Frontend.getBrowserLocale = "en"
    ∧ Frontend.getStoredLocale storage = "en"
    ∧ l = Frontend.Locale.en
    ∧ Frontend.availableLocales = [("English", Frontend.Locale.en)] := by
  refine ⟨rfl, ?_, ?_, rfl⟩
  · simp [Frontend.getStoredLocale, h, Frontend.getBrowserLocale]
  · cases l
    rfl

/-- Witness for C8 at the empty localStorage. -/
theorem C8_locale_only_en_witness :
    ((fun _ : String => (none : Option String)) Frontend.STORAGE_KEY = none)
    ∧ (Frontend.getBrowserLocale = "en"
       ∧ Frontend.getStoredLocale (fun _ => none) = "en"
       ∧ Frontend.Locale.en = Frontend.Locale.en
       ∧ Frontend.availableLocales = [("English", Frontend.Locale.en)]) :=
  ⟨rfl, C8_locale_only_en (fun _ => none) Frontend.Locale.en rfl⟩

/-- C9 counterexample: `getStoredLocale` does not return every previously
stored string unchecked. The empty string is falsy in JavaScript, so after
storing `""` under `'euraika-locale'` the source's
`(storedLocale as Locale) || getBrowserLocale()` yields `'en'`, not the
stored string. -/
theorem C9_unchecked_return_counterexample :
    (fun _ : String => some "") Frontend.STORAGE_KEY = some ""
    ∧ Frontend.getStoredLocale (fun _ : String => some "") = "en"
    ∧ ("en" : String) ≠ "" := by
  refine ⟨rfl, ?_, by decide⟩
  simp [Frontend.getStoredLocale, Frontend.getBrowserLocale]

/-- C9 (amended): for every value `l` of the `Locale` type, `setLocale l`
followed by `getStoredLocale` returns `l` through the localStorage key
`'euraika-locale'`, and afterwards the i18n global locale equals `l`;
`getStoredLocale` performs no validation, so every NONEMPTY string
previously stored under that key is returned as a `Locale` unchecked (the
empty string alone falls back to `getBrowserLocale()`). -/
theorem C9_locale_roundtrip (st : Frontend.FrontendState)
    (l : Frontend.Locale) (storage : String → Option String) (s : String)
    (hs : s ≠ "") (hstored : storage Frontend.STORAGE_KEY = some s) :
    Frontend.getStoredLocale (Frontend.setLocale st l.toString).storage
      = l.toString
    ∧ (Frontend.setLocale st l.toString).i18nLocale = l.toString
    ∧ Frontend.getStoredLocale storage = s := by
  refine ⟨?_, rfl, ?_⟩
  · cases l
    simp [Frontend.getStoredLocale, Frontend.setLocale, Frontend.Locale.toString]
  · simp [Frontend.getStoredLocale, hstored, hs]

/-- Witness for C9 at a concrete state, the locale `en`, and a concrete
localStorage holding the nonempty string `"fr"`. -/
theorem C9_locale_roundtrip_witness :
    ("fr" : String) ≠ ""
    ∧ ((fun _ : String => some "fr") Frontend.STORAGE_KEY = some "fr")
    ∧ (Frontend.getStoredLocale
        (Frontend.setLocale
          { storage := fun _ => none, i18nLocale := "en",
            currentLocale := "en", htmlLang := none }
          Frontend.Locale.en.toString).storage = Frontend.Locale.en.toString
       ∧ (Frontend.setLocale
          { storage := fun _ => none, i18nLocale := "en",
            currentLocale := "en", htmlLang := none }
          Frontend.Locale.en.toString).i18nLocale = Frontend.Locale.en.toString
       ∧ Frontend.getStoredLocale (fun _ : String => some "fr") = "fr") :=
  ⟨by decide, rfl,
    C9_locale_roundtrip
      { storage := fun _ => none, i18nLocale := "en",
        currentLocale := "en", htmlLang := none }
      Frontend.Locale.en (fun _ => some "fr") "fr" (by decide) rfl⟩

/-- C10: running `run.sh push` with `IMAGE_REGISTRY` unset or empty prints
the error line and exits with status 1 without executing any docker
command; any argument other than `build` or `push` prints the usage line
and exits with status 1 without running docker at all. -/
theorem C10_run_sh_guards (regEnv regEnv2 tagEnv tagEnv2 : Option String)
    (arg : String) (hreg : regEnv = none ∨ regEnv = some "")
    (h1 : arg ≠ "build") (h2 : arg ≠ "push") :
    RunSh.runScript "push" regEnv tagEnv =
      { outputs := ["Error: IMAGE_REGISTRY is not set"]
        docker := [], exitCode := 1 }
    ∧ RunSh.runScript arg regEnv2 tagEnv2 =
      { outputs := [RunSh.usageLine], docker := [], exitCode := 1 } := by
  constructor
  · have hr : RunSh.envDefault regEnv "" = "" := by
      rcases hreg with h | h <;> simp [RunSh.envDefault, h]
    simp [RunSh.runScript, RunSh.pushFn, hr]
  · simp [RunSh.runScript, h1, h2]

/-- Witness for C10 with the registry variable unset and the unknown
argument `status`. -/
theorem C10_run_sh_guards_witness :
    ((none : Option String) = none ∨ (none : Option String) = some "")
    ∧ ("status" : String) ≠ "build"
    ∧ ("status" : String) ≠ "push"
    ∧ (RunSh.runScript "push" none none =
        { outputs := ["Error: IMAGE_REGISTRY is not set"]
          docker := [], exitCode := 1 }
       ∧ RunSh.runScript "status" none none =
        { outputs := [RunSh.usageLine], docker := [], exitCode := 1 }) :=
  ⟨Or.inl rfl, by decide, by decide,
    C10_run_sh_guards none none none none "status" (Or.inl rfl)
      (by decide) (by decide)⟩
